import Mathlib

/-!
Verification of the `etl_sakila` ETL pipeline.

This file gives a shallow embedding of the pipeline's core code and proves
the specification's testable properties against it:

* `src/airflow/dags/etl/dim_date_logic.py` — the date-dimension transform
  (`DateETL.transform_data`), embedded over an explicit column/row data-frame
  model.  Pandas mutates the frame passed to `transform_data` in place, so the
  embedding returns a pair `(final state of the caller's frame, returned frame)`.
* `src/airflow/dags/dag.py` — the task driver `etl_tasks` (extract → stage →
  publish → transform → stage → publish → load inside `try`, cleanup in
  `finally`), embedded as a trace of actions plus the propagated error, and the
  task graph `[date, film, store, customer] >> rental`.
* `src/airflow/dags/src/helpers.py` — `get_config` and `remove_file_safely`.

The Airflow scheduler itself is not part of the repository; its task-gating
behaviour is modelled from the spec (see `ValidRun`).
-/

/-! ## Calendar arithmetic

`transform_data` calls pandas `dt.isocalendar().week` and `dt.month`; the
embedding implements the ISO-8601 week numbering those return. -/

/-- A calendar date (proleptic Gregorian, year ≥ 1 in all uses). -/
structure Date where
  year : Nat
  month : Nat
  day : Nat
deriving DecidableEq, Repr

/-- Days since 0000-03-01 (era-based civil-date algorithm); monotone in the
date for the valid dates used here. -/
def daysFromCivil (dt : Date) : Nat :=
  let y := if dt.month ≤ 2 then dt.year - 1 else dt.year
  let era := y / 400
  let yoe := y % 400
  let mp := (dt.month + 9) % 12
  let doy := (153 * mp + 2) / 5 + dt.day - 1
  let doe := yoe * 365 + yoe / 4 - yoe / 100 + doy
  era * 146097 + doe

/-- ISO weekday: Monday = 1 … Sunday = 7.  Day 0 of `daysFromCivil`
(0000-03-01) was a Wednesday. -/
def isoWeekday (dt : Date) : Nat :=
  (daysFromCivil dt + 2) % 7 + 1

/-- One-based ordinal day of the year. -/
def dayOfYear (dt : Date) : Nat :=
  daysFromCivil dt - daysFromCivil ⟨dt.year, 1, 1⟩ + 1

/-- Auxiliary weekday congruence used by the ISO week-count formula. -/
def isoP (y : Nat) : Nat :=
  (y + y / 4 + y / 400 - y / 100) % 7

/-- Number of ISO weeks in year `y` (52 or 53). -/
def weeksInYear (y : Nat) : Nat :=
  if isoP y = 4 ∨ isoP (y - 1) = 3 then 53 else 52

/-- ISO-8601 week number of a date, as returned by pandas
`Series.dt.isocalendar().week`. -/
def isoWeek (dt : Date) : Nat :=
  let w := (dayOfYear dt + 10 - isoWeekday dt) / 7
  if w = 0 then weeksInYear (dt.year - 1)
  else if weeksInYear dt.year < w then 1
  else w

/-- A point in time: the raw `rental_date` values extracted from the source
are timestamps (calendar date plus a time of day in seconds). -/
structure Timestamp where
  date : Date
  sec : Nat
deriving DecidableEq, Repr

/-! ## Data-frame model

A pandas `DataFrame` is modelled as a list of column names plus a list of
rows; each row is a list of cell values positionally aligned with `cols`. -/

/-- A cell value: a datetime, a plain calendar date, or an integer. -/
inductive Value
  | ts (t : Timestamp)
  | date (d : Date)
  | nat (n : Nat)
deriving DecidableEq, Repr

/-- Default cell used by positional lookups that are always in range here. -/
def defVal : Value := Value.nat 0

/-- Position of a column name in a column list. -/
def colIdx : List String → String → Option Nat
  | [], _ => none
  | c :: cs, n => if c = n then some 0 else (colIdx cs n).map (· + 1)

/-- Tabular data: named columns over positional rows. -/
structure DataFrame where
  cols : List String
  rows : List (List Value)
deriving DecidableEq, Repr

/-- Read a column as a list of values (pandas `df[name]`). -/
def getCol (df : DataFrame) (n : String) : List Value :=
  match colIdx df.cols n with
  | some i => df.rows.map (fun r => r.getD i defVal)
  | none => []

/-- Column assignment (pandas `df[name] = vals`): overwrite the column in
place if it exists, otherwise append it as a new last column. -/
def setCol (df : DataFrame) (n : String) (vals : List Value) : DataFrame :=
  match colIdx df.cols n with
  | some i => ⟨df.cols, (df.rows.zip vals).map (fun p => p.1.set i p.2)⟩
  | none => ⟨df.cols ++ [n], (df.rows.zip vals).map (fun p => p.1 ++ [p.2])⟩

/-- Keep-first deduplication by a key, with an accumulator of keys already
seen (pandas `drop_duplicates` default `keep` mode retains the first
occurrence and preserves row order). -/
def dedupKeepFirstByAux [DecidableEq β] (key : α → β) (seen : List β) : List α → List α
  | [] => []
  | x :: xs =>
    if key x ∈ seen then dedupKeepFirstByAux key seen xs
    else x :: dedupKeepFirstByAux key (key x :: seen) xs

/-- Keep-first deduplication by a key. -/
def dedupKeepFirstBy [DecidableEq β] (key : α → β) (l : List α) : List α :=
  dedupKeepFirstByAux key [] l

/-- Pandas `df.drop_duplicates(subset=n)`: keep the first row per distinct
value of column `n`, preserving row order; returns a fresh frame. -/
def dropDuplicatesOn (df : DataFrame) (n : String) : DataFrame :=
  match colIdx df.cols n with
  | some i => ⟨df.cols, dedupKeepFirstBy (fun r => r.getD i defVal) df.rows⟩
  | none => df

/-- Pandas `df.rename(columns=m)`: rename the listed columns, leave the rest. -/
def renameCols (df : DataFrame) (m : List (String × String)) : DataFrame :=
  ⟨df.cols.map (fun c => (m.lookup c).getD c), df.rows⟩

/-! ## The date-dimension transform (`dim_date_logic.py`) -/

/-- `pd.to_datetime` on the extracted column: the source already yields
datetimes, on which the conversion is the identity. -/
def toDatetime : Value → Value
  | .ts t => .ts t
  | v => v

/-- `Series.dt.isocalendar().week` applied cell-wise. -/
def isoWeekOf : Value → Value
  | .ts t => .nat (isoWeek t.date)
  | v => v

/-- `Series.dt.month` applied cell-wise. -/
def monthOf : Value → Value
  | .ts t => .nat t.date.month
  | v => v

/-- `Series.dt.date` applied cell-wise: truncate a datetime to its calendar
date. -/
def dateOnly : Value → Value
  | .ts t => .date t.date
  | v => v

namespace DateETL

/-- `DateETL.get_table_name`. -/
def get_table_name : String := "dim_date"

/-- `DateETL.transform_data`, statement by statement.  The first four column
assignments act on the caller's frame in place; `drop_duplicates` then
produces a fresh frame on which the surrogate key is assigned and the columns
renamed.  The result is the pair
`(final state of the caller's frame, returned frame)`. -/
def transform_data (df0 : DataFrame) : DataFrame × DataFrame :=
  let df1 := setCol df0 "rental_date" ((getCol df0 "rental_date").map toDatetime)
  let df2 := setCol df1 "week" ((getCol df1 "rental_date").map isoWeekOf)
  let df3 := setCol df2 "rental_month" ((getCol df2 "rental_date").map monthOf)
  let dfMut := setCol df3 "rental_date" ((getCol df3 "rental_date").map dateOnly)
  let df5 := dropDuplicatesOn dfMut "rental_date"
  let df6 := setCol df5 "date_key" ((List.range df5.rows.length).map (fun i => Value.nat (i + 1)))
  let df7 := renameCols df6 [("rental_date", "full_date"), ("week", "rental_week")]
  (dfMut, df7)

end DateETL

/-- A raw date artifact as produced by `DateETL.extract_data`: a single
`rental_date` column of timestamps. -/
def mkRaw (l : List Timestamp) : DataFrame :=
  ⟨["rental_date"], l.map (fun t => [Value.ts t])⟩

/-- The row shape the in-place mutations leave behind in the caller's frame:
`rental_date` truncated to a date, plus derived `week` and `rental_month`. -/
def mutRow (t : Timestamp) : List Value :=
  [Value.date t.date, Value.nat (isoWeek t.date), Value.nat t.date.month]

/-- The distinct calendar dates occurring in a raw artifact, in first-seen
order. -/
def distinctDates (l : List Timestamp) : List Date :=
  dedupKeepFirstBy (fun d => d) (l.map Timestamp.date)

/-! ## The task driver (`etl_tasks` in `dag.py`)

The driver body runs extract, stages the raw frame, publishes its path,
transforms, stages the transformed frame, publishes its path, and loads — all
inside a `try`; the `finally` block removes both staged files and disposes
both engines.  The embedding records the sequence of performed steps as a
trace and computes the error that propagates out of the driver, following
Python semantics: an exception raised inside `finally` supersedes the pending
body exception. -/

/-- The statements of the driver's `try` body, in program order. -/
inductive BodyStep
  | extractData
  | writeRaw
  | pushRawPath
  | transformData
  | writeTransformed
  | pushTransformedPath
  | loadData
deriving DecidableEq, Repr

/-- The body statements in program order. -/
def bodyOrder : List BodyStep :=
  [.extractData, .writeRaw, .pushRawPath, .transformData,
   .writeTransformed, .pushTransformedPath, .loadData]

/-- The statements of the driver's `finally` block, in program order. -/
inductive CleanupStep
  | removeRaw
  | removeTransformed
  | disposeSource
  | disposeWarehouse
deriving DecidableEq, Repr

/-- One attempted statement of the driver. -/
inductive DriverAction
  | body (s : BodyStep)
  | clean (s : CleanupStep)
deriving DecidableEq, Repr

/-- Errors a driver execution can propagate. -/
inductive TaskError
  | extractError
  | transformError
  | loadError
  | unexpectedError
  | sourceDisposeError
  | warehouseDisposeError
deriving DecidableEq, Repr

/-- Error raised when a body statement fails: the three phase calls surface
phase errors; the staging writes and metadata pushes surface unexpected
errors. -/
def errOf : BodyStep → TaskError
  | .extractData => .extractError
  | .transformData => .transformError
  | .loadData => .loadError
  | _ => .unexpectedError

/-- One execution's failure injection: which body statement (if any) raises,
and which cleanup operations fail.  A failing `os.remove` inside
`remove_file_safely` is caught there and only means the file stays behind; a
failing `Engine.dispose` raises out of the `finally` block. -/
structure Behavior where
  failAt : Option BodyStep
  removeRawFails : Bool
  removeTransformedFails : Bool
  disposeSourceFails : Bool
  disposeWarehouseFails : Bool
deriving DecidableEq, Repr

/-- Prefix of a statement list up to and including the first occurrence of
`s` (the failing statement is attempted, later ones are not reached). -/
def takeTo [DecidableEq α] (s : α) : List α → List α
  | [] => []
  | x :: xs => if x = s then [x] else x :: takeTo s xs

/-- The body statements attempted, given the failing statement if any. -/
def bodyTrace (f : Option BodyStep) : List BodyStep :=
  match f with
  | none => bodyOrder
  | some s => takeTo s bodyOrder

/-- The cleanup statements attempted.  Both `remove_file_safely` calls always
run (they swallow their own errors); a raising `dispose` of the source engine
aborts the `finally` block before the warehouse engine is disposed. -/
def cleanupTrace (b : Behavior) : List CleanupStep :=
  if b.disposeSourceFails then [.removeRaw, .removeTransformed, .disposeSource]
  else [.removeRaw, .removeTransformed, .disposeSource, .disposeWarehouse]

/-- The error raised by the `finally` block itself, if any. -/
def cleanupErr (b : Behavior) : Option TaskError :=
  if b.disposeSourceFails then some .sourceDisposeError
  else if b.disposeWarehouseFails then some .warehouseDisposeError
  else none

/-- `etl_tasks`: the full attempted-statement trace and the error that
propagates out (a `finally`-raised error supersedes the body's). -/
def etl_tasks (b : Behavior) : List DriverAction × Option TaskError :=
  ((bodyTrace b.failAt).map DriverAction.body ++ (cleanupTrace b).map DriverAction.clean,
   (cleanupErr b).orElse (fun _ => b.failAt.map errOf))

/-- Observable resource state of one driver execution: which staged artifacts
exist under the task's namespace and which engines have been disposed. -/
structure ResState where
  rawStaged : Bool
  transformedStaged : Bool
  sourceDisposed : Bool
  warehouseDisposed : Bool
deriving DecidableEq, Repr

/-- State before the driver runs. -/
def initState : ResState := ⟨false, false, false, false⟩

/-- Effect of one attempted statement on the resource state. -/
def applyAction (b : Behavior) (st : ResState) : DriverAction → ResState
  | .body .writeRaw => { st with rawStaged := true }
  | .body .writeTransformed => { st with transformedStaged := true }
  | .body _ => st
  | .clean .removeRaw => { st with rawStaged := st.rawStaged && b.removeRawFails }
  | .clean .removeTransformed =>
      { st with transformedStaged := st.transformedStaged && b.removeTransformedFails }
  | .clean .disposeSource => { st with sourceDisposed := !b.disposeSourceFails }
  | .clean .disposeWarehouse => { st with warehouseDisposed := !b.disposeWarehouseFails }

/-- Resource state after one driver execution. -/
def finalState (b : Behavior) : ResState :=
  (etl_tasks b).1.foldl (applyAction b) initState

/-! ## The task graph (`dag.py`) and scheduler semantics -/

/-- The five task ids declared in the DAG. -/
inductive TaskId
  | run_date_etl
  | run_film_etl
  | run_store_etl
  | run_customer_etl
  | run_rental_etl
deriving DecidableEq, Repr

/-- The dependency edges declared in `dag.py`:
`[date_etl_task, film_etl_task, store_etl_task, customer_etl_task] >> rental_etl_task`. -/
def upstream : TaskId → List TaskId
  | .run_rental_etl => [.run_date_etl, .run_film_etl, .run_store_etl, .run_customer_etl]
  | _ => []

/-- Per-task outcome of a run. -/
inductive Outcome
  | succeeded
  | failed
  | skipped
deriving DecidableEq, Repr

/-- One run of the graph: per-task outcome, start and end instants (none when
the task never started), and whether each task's own work succeeds when
attempted (its final-retry result). -/
structure SchedRun where
  outcome : TaskId → Outcome
  startTime : TaskId → Option Nat
  endTime : TaskId → Option Nat
  intrinsicOk : TaskId → Bool

/-- Modelled from the spec: the scheduler executing the DAG is not part of
the repository (Airflow, with default `all_success` trigger rules), so its
gating behaviour is taken from the spec — a task becomes eligible only once
all of its declared dependencies have completed with success, tasks with a
failed or skipped dependency are skipped and not attempted, and a task whose
dependencies all succeeded is run, its outcome determined by its own work. -/
structure ValidRun (r : SchedRun) : Prop where
  started_iff : ∀ t, (r.startTime t).isSome = true ↔ r.outcome t ≠ Outcome.skipped
  ends_iff : ∀ t, (r.endTime t).isSome = (r.startTime t).isSome
  deps_ok : ∀ t d, d ∈ upstream t → ∀ s, r.startTime t = some s →
    r.outcome d = Outcome.succeeded ∧ ∃ e, r.endTime d = some e ∧ e < s
  run_outcome : ∀ t, r.outcome t ≠ Outcome.skipped →
    r.outcome t = (if r.intrinsicOk t then Outcome.succeeded else Outcome.failed)
  progress : ∀ t, (∀ d ∈ upstream t, r.outcome d = Outcome.succeeded) →
    r.outcome t ≠ Outcome.skipped

/-- A fully successful run: dimensions at instants 0–1, the fact task at 2–3. -/
def run0 : SchedRun where
  outcome := fun _ => Outcome.succeeded
  startTime := fun t => if t = TaskId.run_rental_etl then some 2 else some 0
  endTime := fun t => if t = TaskId.run_rental_etl then some 3 else some 1
  intrinsicOk := fun _ => true

/-- A run in which the date dimension task fails all retries: the other
dimensions complete, the fact task never starts. -/
def run1 : SchedRun where
  outcome := fun t =>
    if t = TaskId.run_date_etl then Outcome.failed
    else if t = TaskId.run_rental_etl then Outcome.skipped
    else Outcome.succeeded
  startTime := fun t => if t = TaskId.run_rental_etl then none else some 0
  endTime := fun t => if t = TaskId.run_rental_etl then none else some 1
  intrinsicOk := fun t => !(t = TaskId.run_date_etl)

/-! ## Helpers (`helpers.py`) -/

/-- A Python return value: `None` or a boolean. -/
inductive PyReturn
  | none
  | bool (b : Bool)
deriving DecidableEq, Repr

/-- `remove_file_safely`: the staging store is the set of existing file
paths; the function removes the file if it exists and returns `None` (the
function body has no `return` statement). -/
def remove_file_safely (fs : List String) (p : String) : List String × PyReturn :=
  if p ∈ fs then (fs.filter (fun q => q ≠ p), PyReturn.none)
  else (fs, PyReturn.none)

/-- The values read from `config.py` (that file is environment wiring outside
the embedded core; the ten fields are opaque inputs). -/
structure ConfigEnv where
  sourceUser : String
  sourcePassword : String
  sourceHost : String
  sourcePort : Nat
  sourceDatabase : String
  warehouseUser : String
  warehousePassword : String
  warehouseHost : String
  warehousePort : Nat
  warehouseDatabase : String
deriving DecidableEq, Repr

/-- A database connection configuration dictionary. -/
structure DBConfig where
  user : String
  password : String
  host : String
  port : Nat
  database : String
deriving DecidableEq, Repr

/-- The `source_db_config` dictionary built by `get_config`. -/
def source_db_config (c : ConfigEnv) : DBConfig :=
  ⟨c.sourceUser, c.sourcePassword, c.sourceHost, c.sourcePort, c.sourceDatabase⟩

/-- The `warehouse_db_config` dictionary built by `get_config`. -/
def warehouse_db_config (c : ConfigEnv) : DBConfig :=
  ⟨c.warehouseUser, c.warehousePassword, c.warehouseHost, c.warehousePort, c.warehouseDatabase⟩

/-- `get_config`: source config for `sakila`, warehouse config for
`sakila_dw`, `ValueError` otherwise. -/
def get_config (c : ConfigEnv) (db_name : String) : Except String DBConfig :=
  if db_name = "sakila" then Except.ok (source_db_config c)
  else if db_name = "sakila_dw" then Except.ok (warehouse_db_config c)
  else Except.error ("Unknown database name: " ++ db_name ++ ". Use sakila or sakila_dw")

/-! ## Concrete inputs used by witnesses and counterexamples -/

/-- Five rental timestamps of which the first and third share a calendar
date (the spec's end-to-end scenario). -/
def exTimestamps : List Timestamp :=
  [⟨⟨2005, 5, 24⟩, 3600⟩, ⟨⟨2005, 5, 25⟩, 100⟩, ⟨⟨2005, 5, 24⟩, 7200⟩,
   ⟨⟨2005, 5, 26⟩, 0⟩, ⟨⟨2005, 5, 31⟩, 50⟩]

/-- A single raw timestamp carrying a nonzero time of day. -/
def oneTs : Timestamp := ⟨⟨2005, 5, 24⟩, 3600⟩

/-- An execution whose load phase fails and whose source-engine disposal also
fails during cleanup. -/
def behaviorDisposeFail : Behavior := ⟨some .loadData, false, false, true, false⟩

/-- A fully successful execution with no cleanup failures. -/
def behaviorOk : Behavior := ⟨none, false, false, false, false⟩

/-- A concrete configuration environment. -/
def envEx : ConfigEnv :=
  ⟨"root", "srcpass", "mysql-source", 3306, "sakila",
   "root", "whpass", "mysql-warehouse", 3306, "sakila_dw"⟩

/-! ## Frame-operation lemmas -/

theorem getCol_map_frame {α : Type} (cols : List String) (n : String) (i : Nat)
    (h : colIdx cols n = some i) (f : α → List Value) (l : List α) :
    getCol ⟨cols, l.map f⟩ n = l.map (fun a => (f a).getD i defVal) := by
  simp [getCol, h, List.map_map, Function.comp]

theorem setCol_map_frame_hit {α : Type} (cols : List String) (n : String) (i : Nat)
    (h : colIdx cols n = some i) (f : α → List Value) (g : α → Value) (l : List α) :
    setCol ⟨cols, l.map f⟩ n (l.map g) = ⟨cols, l.map (fun a => (f a).set i (g a))⟩ := by
  simp [setCol, h, List.zip_map', List.map_map, Function.comp]

theorem setCol_map_frame_miss {α : Type} (cols : List String) (n : String)
    (h : colIdx cols n = none) (f : α → List Value) (g : α → Value) (l : List α) :
    setCol ⟨cols, l.map f⟩ n (l.map g) = ⟨cols ++ [n], l.map (fun a => f a ++ [g a])⟩ := by
  simp [setCol, h, List.zip_map', List.map_map, Function.comp]

theorem setCol_append_zip (cols : List String) (n : String)
    (h : colIdx cols n = none) (rows : List (List Value)) (vals : List Value) :
    setCol ⟨cols, rows⟩ n vals = ⟨cols ++ [n], (rows.zip vals).map (fun p => p.1 ++ [p.2])⟩ := by
  simp [setCol, h]

/-! ## Keep-first deduplication lemmas -/

theorem dedupKeepFirstByAux_map {α γ : Type} {β : Type} [DecidableEq β]
    (k : γ → β) (f : α → γ) (l : List α) :
    ∀ seen, dedupKeepFirstByAux k seen (l.map f)
      = (dedupKeepFirstByAux (fun a => k (f a)) seen l).map f := by
  induction l with
  | nil => intro seen; rfl
  | cons x xs ih =>
    intro seen
    by_cases h : k (f x) ∈ seen <;> simp [dedupKeepFirstByAux, h, ih]

theorem dedupKeepFirstBy_map {α γ : Type} {β : Type} [DecidableEq β]
    (k : γ → β) (f : α → γ) (l : List α) :
    dedupKeepFirstBy k (l.map f) = (dedupKeepFirstBy (fun a => k (f a)) l).map f :=
  dedupKeepFirstByAux_map k f l []

theorem dedupKeepFirstByAux_comp_inj {α : Type} {β γ : Type} [DecidableEq β] [DecidableEq γ]
    {g : β → γ} (hg : Function.Injective g) (k : α → β) (l : List α) :
    ∀ seen : List β,
      dedupKeepFirstByAux (fun a => g (k a)) (seen.map g) l = dedupKeepFirstByAux k seen l := by
  induction l with
  | nil => intro seen; rfl
  | cons x xs ih =>
    intro seen
    by_cases h : k x ∈ seen
    · simp [dedupKeepFirstByAux, List.mem_map_of_injective hg, h, ih]
    · have hg' : g (k x) ∉ seen.map g := by
        simpa [List.mem_map_of_injective hg] using h
      have := ih (k x :: seen)
      simp only [List.map_cons] at this
      simp [dedupKeepFirstByAux, hg', h, this]

theorem dedupKeepFirstBy_comp_inj {α : Type} {β γ : Type} [DecidableEq β] [DecidableEq γ]
    {g : β → γ} (hg : Function.Injective g) (k : α → β) (l : List α) :
    dedupKeepFirstBy (fun a => g (k a)) l = dedupKeepFirstBy k l := by
  have := dedupKeepFirstByAux_comp_inj hg k l []
  simpa [dedupKeepFirstBy] using this

theorem dedupKeepFirstByAux_sublist {α : Type} {β : Type} [DecidableEq β]
    (k : α → β) (l : List α) :
    ∀ seen, List.Sublist (dedupKeepFirstByAux k seen l) l := by
  induction l with
  | nil => intro _; simp [dedupKeepFirstByAux]
  | cons x xs ih =>
    intro seen
    by_cases h : k x ∈ seen
    · simp only [dedupKeepFirstByAux, if_pos h]
      exact (ih seen).trans (List.sublist_cons_self x xs)
    · simp only [dedupKeepFirstByAux, if_neg h]
      exact List.Sublist.cons₂ x (ih _)

theorem dedupKeepFirstBy_sublist {α : Type} {β : Type} [DecidableEq β]
    (k : α → β) (l : List α) :
    List.Sublist (dedupKeepFirstBy k l) l :=
  dedupKeepFirstByAux_sublist k l []

theorem dedupKeepFirstByAux_find {α : Type} {β : Type} [DecidableEq β]
    (k : α → β) (l : List α) (b : β) :
    ∀ seen, b ∉ seen →
      (dedupKeepFirstByAux k seen l).find? (fun a => k a == b)
        = l.find? (fun a => k a == b) := by
  induction l with
  | nil => intro _ _; rfl
  | cons x xs ih =>
    intro seen hb
    by_cases h : k x ∈ seen
    · have hne : (k x == b) = false := by
        by_contra hc
        have : k x = b := by
          have := eq_true_of_ne_false hc
          simpa using this
        exact hb (this ▸ h)
      simp only [dedupKeepFirstByAux, if_pos h]
      rw [ih seen hb, List.find?_cons, hne]
    · by_cases hxb : k x = b
      · simp only [dedupKeepFirstByAux, if_neg h]
        rw [List.find?_cons, List.find?_cons]
        simp [hxb]
      · have hne : (k x == b) = false := by simp [hxb]
        have hb' : b ∉ k x :: seen := by
          simp only [List.mem_cons, not_or]
          exact ⟨fun hc => hxb hc.symm, hb⟩
        simp only [dedupKeepFirstByAux, if_neg h]
        rw [List.find?_cons, List.find?_cons, hne, ih _ hb']

theorem dedupKeepFirstBy_find {α : Type} {β : Type} [DecidableEq β]
    (k : α → β) (l : List α) (b : β) :
    (dedupKeepFirstBy k l).find? (fun a => k a == b) = l.find? (fun a => k a == b) :=
  dedupKeepFirstByAux_find k l b [] (by simp)

/-- Cell constructor `Value.date` is injective. -/
theorem value_date_inj : Function.Injective Value.date := by
  intro a b h
  injection h

theorem transform_data_mkRaw (l : List Timestamp) :
    DateETL.transform_data (mkRaw l) =
      (⟨["rental_date", "week", "rental_month"], l.map mutRow⟩,
       ⟨["full_date", "rental_week", "rental_month", "date_key"],
        ((dedupKeepFirstBy Timestamp.date l).zip
          (List.range (dedupKeepFirstBy Timestamp.date l).length)).map
          (fun p => mutRow p.1 ++ [Value.nat (p.2 + 1)])⟩) := by
  have c0 : colIdx ["rental_date"] "rental_date" = some 0 := by decide
  have c1 : colIdx ["rental_date"] "week" = none := by decide
  have c2 : colIdx ["rental_date", "week"] "rental_date" = some 0 := by decide
  have c3 : colIdx ["rental_date", "week"] "rental_month" = none := by decide
  have c4 : colIdx ["rental_date", "week", "rental_month"] "rental_date" = some 0 := by decide
  have c5 : colIdx ["rental_date", "week", "rental_month"] "date_key" = none := by decide
  have g0 : getCol (mkRaw l) "rental_date" = l.map (fun t => Value.ts t) := by
    rw [mkRaw, getCol_map_frame _ _ 0 c0]
    simp
  have e1 : setCol (mkRaw l) "rental_date" ((getCol (mkRaw l) "rental_date").map toDatetime)
      = mkRaw l := by
    rw [g0, List.map_map]
    rw [mkRaw, setCol_map_frame_hit _ _ 0 c0]
    simp [Function.comp, toDatetime]
  have e2 : setCol (mkRaw l) "week" ((getCol (mkRaw l) "rental_date").map isoWeekOf)
      = ⟨["rental_date", "week"],
         l.map (fun t => [Value.ts t, Value.nat (isoWeek t.date)])⟩ := by
    rw [g0, List.map_map]
    rw [mkRaw, setCol_map_frame_miss _ _ c1]
    simp [Function.comp, isoWeekOf]
  have g2 : getCol (⟨["rental_date", "week"],
        l.map (fun t => [Value.ts t, Value.nat (isoWeek t.date)])⟩ : DataFrame) "rental_date"
      = l.map (fun t => Value.ts t) := by
    rw [getCol_map_frame _ _ 0 c2]
    simp
  have e3 : setCol (⟨["rental_date", "week"],
        l.map (fun t => [Value.ts t, Value.nat (isoWeek t.date)])⟩ : DataFrame) "rental_month"
        ((l.map (fun t => Value.ts t)).map monthOf)
      = ⟨["rental_date", "week", "rental_month"],
         l.map (fun t => [Value.ts t, Value.nat (isoWeek t.date), Value.nat t.date.month])⟩ := by
    rw [List.map_map, setCol_map_frame_miss _ _ c3]
    simp [Function.comp, monthOf]
  have g3 : getCol (⟨["rental_date", "week", "rental_month"],
        l.map (fun t => [Value.ts t, Value.nat (isoWeek t.date), Value.nat t.date.month])⟩ :
          DataFrame) "rental_date"
      = l.map (fun t => Value.ts t) := by
    rw [getCol_map_frame _ _ 0 c4]
    simp
  have e4 : setCol (⟨["rental_date", "week", "rental_month"],
        l.map (fun t => [Value.ts t, Value.nat (isoWeek t.date), Value.nat t.date.month])⟩ :
          DataFrame) "rental_date" ((l.map (fun t => Value.ts t)).map dateOnly)
      = ⟨["rental_date", "week", "rental_month"], l.map mutRow⟩ := by
    rw [List.map_map, setCol_map_frame_hit _ _ 0 c4]
    simp [Function.comp, dateOnly, mutRow]
  have e5 : dropDuplicatesOn (⟨["rental_date", "week", "rental_month"], l.map mutRow⟩ :
        DataFrame) "rental_date"
      = ⟨["rental_date", "week", "rental_month"],
         (dedupKeepFirstBy Timestamp.date l).map mutRow⟩ := by
    rw [dropDuplicatesOn]
    simp only [c4]
    congr 1
    rw [dedupKeepFirstBy_map]
    congr 1
    have : (fun a => (mutRow a).getD 0 defVal) = fun a => Value.date (Timestamp.date a) := by
      funext a
      simp [mutRow]
    rw [this, dedupKeepFirstBy_comp_inj value_date_inj]
  have e6 : setCol (⟨["rental_date", "week", "rental_month"],
        (dedupKeepFirstBy Timestamp.date l).map mutRow⟩ : DataFrame) "date_key"
        ((List.range ((dedupKeepFirstBy Timestamp.date l).map mutRow).length).map
          (fun i => Value.nat (i + 1)))
      = ⟨["rental_date", "week", "rental_month", "date_key"],
         ((dedupKeepFirstBy Timestamp.date l).zip
           (List.range (dedupKeepFirstBy Timestamp.date l).length)).map
           (fun p => mutRow p.1 ++ [Value.nat (p.2 + 1)])⟩ := by
    rw [setCol_append_zip _ _ c5, List.length_map, List.zip_map, List.map_map]
    rfl
  show DateETL.transform_data (mkRaw l) = _
  rw [DateETL.transform_data]
  rw [e1, e2, g2, e3, g3, e4, e5, e6]
  rw [renameCols]
  rfl

theorem map_zip_fst {α β γ : Type} (f : α → γ) :
    ∀ (l1 : List α) (l2 : List β), l1.length = l2.length →
      (l1.zip l2).map (fun p => f p.1) = l1.map f
  | [], [], _ => rfl
  | [], _ :: _, h => by simp at h
  | _ :: _, [], h => by simp at h
  | a :: l1, b :: l2, h => by
    simp only [List.zip_cons_cons, List.map_cons]
    rw [map_zip_fst f l1 l2 (by simpa using h)]

theorem map_zip_snd {α β γ : Type} (g : β → γ) :
    ∀ (l1 : List α) (l2 : List β), l1.length = l2.length →
      (l1.zip l2).map (fun p => g p.2) = l2.map g
  | [], [], _ => rfl
  | [], _ :: _, h => by simp at h
  | _ :: _, [], h => by simp at h
  | a :: l1, b :: l2, h => by
    simp only [List.zip_cons_cons, List.map_cons]
    rw [map_zip_snd g l1 l2 (by simpa using h)]

theorem distinctDates_eq (l : List Timestamp) :
    distinctDates l = (dedupKeepFirstBy Timestamp.date l).map Timestamp.date := by
  rw [distinctDates, dedupKeepFirstBy_map]

theorem distinctDates_length (l : List Timestamp) :
    (distinctDates l).length = (dedupKeepFirstBy Timestamp.date l).length := by
  rw [distinctDates_eq, List.length_map]

theorem out_frame (l : List Timestamp) :
    (DateETL.transform_data (mkRaw l)).2 =
      ⟨["full_date", "rental_week", "rental_month", "date_key"],
       ((dedupKeepFirstBy Timestamp.date l).zip
         (List.range (dedupKeepFirstBy Timestamp.date l).length)).map
         (fun p => mutRow p.1 ++ [Value.nat (p.2 + 1)])⟩ := by
  rw [transform_data_mkRaw]

theorem mut_frame (l : List Timestamp) :
    (DateETL.transform_data (mkRaw l)).1 =
      ⟨["rental_date", "week", "rental_month"], l.map mutRow⟩ := by
  rw [transform_data_mkRaw]

theorem out_rows_length (l : List Timestamp) :
    (DateETL.transform_data (mkRaw l)).2.rows.length = (distinctDates l).length := by
  rw [out_frame, distinctDates_length]
  simp

theorem out_date_key (l : List Timestamp) :
    getCol (DateETL.transform_data (mkRaw l)).2 "date_key"
      = (List.range (distinctDates l).length).map (fun i => Value.nat (i + 1)) := by
  rw [out_frame, distinctDates_length,
    getCol_map_frame _ _ 3 (by decide)]
  have h1 : (fun p : Timestamp × Nat =>
      (mutRow p.1 ++ [Value.nat (p.2 + 1)]).getD 3 defVal) = fun p => Value.nat (p.2 + 1) := by
    funext p
    simp [mutRow]
  rw [h1]
  exact map_zip_snd (fun n => Value.nat (n + 1)) _ _ (by simp)

theorem out_full_date (l : List Timestamp) :
    getCol (DateETL.transform_data (mkRaw l)).2 "full_date"
      = (distinctDates l).map Value.date := by
  rw [out_frame, getCol_map_frame _ _ 0 (by decide)]
  have h1 : (fun p : Timestamp × Nat =>
      (mutRow p.1 ++ [Value.nat (p.2 + 1)]).getD 0 defVal) = fun p => Value.date p.1.date := by
    funext p
    simp [mutRow]
  rw [h1]
  have h2 := map_zip_fst (fun t : Timestamp => Value.date t.date)
    (dedupKeepFirstBy Timestamp.date l)
    (List.range (dedupKeepFirstBy Timestamp.date l).length) (by simp)
  refine h2.trans ?_
  rw [distinctDates_eq, List.map_map]
  rfl

/-- C1: for every raw date artifact with N rows and K distinct calendar
dates, `DateETL.transform_data` returns an artifact with exactly K rows —
the first-seen row per distinct date, in earlier-seen order (its rows are a
sublist of the input's mutation image, and the kept row for each date is the
first input row bearing that date) — whose `date_key` column is exactly the
dense sequence 1..K; in particular the 5 example timestamps, 2 of which
share a calendar date, yield 4 rows keyed 1..4 whose week and month columns
are derived from the dates. -/
theorem transform_dedup_surrogate_keys :
    (∀ l : List Timestamp,
      (DateETL.transform_data (mkRaw l)).2.rows.length = (distinctDates l).length
      ∧ getCol (DateETL.transform_data (mkRaw l)).2 "date_key"
          = (List.range (distinctDates l).length).map (fun i => Value.nat (i + 1))
      ∧ getCol (DateETL.transform_data (mkRaw l)).2 "full_date"
          = (distinctDates l).map Value.date
      ∧ List.Sublist (dedupKeepFirstBy Timestamp.date l) l
      ∧ (∀ d : Date,
          (dedupKeepFirstBy Timestamp.date l).find? (fun t => t.date == d)
            = l.find? (fun t => t.date == d))
      ∧ (DateETL.transform_data (mkRaw l)).2.rows
          = ((dedupKeepFirstBy Timestamp.date l).zip
              (List.range (dedupKeepFirstBy Timestamp.date l).length)).map
              (fun p => mutRow p.1 ++ [Value.nat (p.2 + 1)]))
    ∧ ((DateETL.transform_data (mkRaw exTimestamps)).2.rows.length = 4
      ∧ getCol (DateETL.transform_data (mkRaw exTimestamps)).2 "date_key"
          = [Value.nat 1, Value.nat 2, Value.nat 3, Value.nat 4]
      ∧ getCol (DateETL.transform_data (mkRaw exTimestamps)).2 "full_date"
          = [Value.date ⟨2005, 5, 24⟩, Value.date ⟨2005, 5, 25⟩,
             Value.date ⟨2005, 5, 26⟩, Value.date ⟨2005, 5, 31⟩]
      ∧ getCol (DateETL.transform_data (mkRaw exTimestamps)).2 "rental_week"
          = [Value.nat (isoWeek ⟨2005, 5, 24⟩), Value.nat (isoWeek ⟨2005, 5, 25⟩),
             Value.nat (isoWeek ⟨2005, 5, 26⟩), Value.nat (isoWeek ⟨2005, 5, 31⟩)]
      ∧ getCol (DateETL.transform_data (mkRaw exTimestamps)).2 "rental_month"
          = [Value.nat 5, Value.nat 5, Value.nat 5, Value.nat 5]) := by
  constructor
  · intro l
    refine ⟨out_rows_length l, out_date_key l, out_full_date l,
      dedupKeepFirstBy_sublist _ l, fun d => dedupKeepFirstBy_find _ l d, ?_⟩
    rw [out_frame]
  · exact ⟨by decide, by decide, by decide, by decide, by decide⟩

/-- C2: two runs of `DateETL.transform_data` on identical raw input
artifacts produce identical transformed outputs — the transform reads no
ambient state (no randomness or clock appears in its embedding), so its
result is a function of the input frame alone. -/
theorem transform_deterministic (d1 d2 : DataFrame) (h : d1 = d2) :
    DateETL.transform_data d1 = DateETL.transform_data d2 := by
  rw [h]

/-- Witness for C2 at the concrete example artifact. -/
theorem transform_deterministic_witness :
    DateETL.transform_data (mkRaw exTimestamps)
      = DateETL.transform_data (mkRaw exTimestamps) :=
  transform_deterministic (mkRaw exTimestamps) (mkRaw exTimestamps) rfl

/-- C8 counterexample: `DateETL.transform_data` does not leave the raw
input frame it was given unchanged — on a one-row artifact the caller's
frame ends up with different contents (its column list alone goes from one
column to three), so the transform is not free of effects on its input. -/
theorem transform_mutates_input_cex :
    (DateETL.transform_data (mkRaw [oneTs])).1 ≠ mkRaw [oneTs]
      ∧ (DateETL.transform_data (mkRaw [oneTs])).1.cols ≠ (mkRaw [oneTs]).cols := by
  decide

/-- C8 amended: `DateETL.transform_data` computes its returned artifact as
a function of the raw artifact alone, but it mutates the caller's frame in
place: the input ends with its `rental_date` column truncated to calendar
dates and appended `week` and `rental_month` columns, while the returned
artifact is a fresh deduplicated frame. -/
theorem transform_mutation_characterized (l : List Timestamp) :
    (DateETL.transform_data (mkRaw l)).1
      = ⟨["rental_date", "week", "rental_month"], l.map mutRow⟩
    ∧ (DateETL.transform_data (mkRaw l)).2
      = ⟨["full_date", "rental_week", "rental_month", "date_key"],
         ((dedupKeepFirstBy Timestamp.date l).zip
           (List.range (dedupKeepFirstBy Timestamp.date l).length)).map
           (fun p => mutRow p.1 ++ [Value.nat (p.2 + 1)])⟩ :=
  ⟨mut_frame l, out_frame l⟩

/-- C5: on every exit path of `etl_tasks` — normal completion, an error in
any of the three phases, or an unexpected error at a staging or publishing
statement — and with the cleanup operations themselves succeeding, the
cleanup suffix runs exactly once and in order (remove raw artifact, remove
transformed artifact, dispose source engine, dispose warehouse engine), and
afterwards no artifact of the task remains staged and both engines are
disposed. -/
theorem cleanup_every_exit_path :
    ∀ f : Option BodyStep,
      (etl_tasks ⟨f, false, false, false, false⟩).1
        = (bodyTrace f).map DriverAction.body ++
          [DriverAction.clean CleanupStep.removeRaw,
           DriverAction.clean CleanupStep.removeTransformed,
           DriverAction.clean CleanupStep.disposeSource,
           DriverAction.clean CleanupStep.disposeWarehouse]
      ∧ (etl_tasks ⟨f, false, false, false, false⟩).1.count
          (DriverAction.clean CleanupStep.removeRaw) = 1
      ∧ (etl_tasks ⟨f, false, false, false, false⟩).1.count
          (DriverAction.clean CleanupStep.removeTransformed) = 1
      ∧ (etl_tasks ⟨f, false, false, false, false⟩).1.count
          (DriverAction.clean CleanupStep.disposeSource) = 1
      ∧ (etl_tasks ⟨f, false, false, false, false⟩).1.count
          (DriverAction.clean CleanupStep.disposeWarehouse) = 1
      ∧ finalState ⟨f, false, false, false, false⟩
          = ⟨false, false, true, true⟩ := by
  intro f
  rcases f with _ | s
  · decide
  · cases s <;> decide

/-- C6 counterexample: a task whose load phase fails with `LoadError` and
whose source-engine disposal then fails during cleanup propagates the
disposal error, not the original `LoadError` — a cleanup failure in the
`finally` block's unguarded `dispose` calls replaces the task failure. -/
theorem cleanup_failure_masks_cex :
    behaviorDisposeFail.failAt.map errOf = some TaskError.loadError
    ∧ (etl_tasks behaviorDisposeFail).2 = some TaskError.sourceDisposeError
    ∧ (etl_tasks behaviorDisposeFail).2 ≠ some TaskError.loadError := by
  decide

/-- C6 amended: failures of the artifact-removal cleanup steps are swallowed
inside `remove_file_safely` and never change the error propagated out of
`etl_tasks` — the original task error always propagates when both engine
disposals succeed — but a failing engine disposal in the `finally` block is
not swallowed: it propagates and masks the original task failure. -/
theorem removal_failures_never_mask :
    (∀ (f : Option BodyStep) (rr rt : Bool),
      (etl_tasks ⟨f, rr, rt, false, false⟩).2 = f.map errOf)
    ∧ (∀ (f : Option BodyStep) (rr rt dw : Bool),
      (etl_tasks ⟨f, rr, rt, true, dw⟩).2 = some TaskError.sourceDisposeError)
    ∧ (∀ (f : Option BodyStep) (rr rt : Bool),
      (etl_tasks ⟨f, rr, rt, false, true⟩).2 = some TaskError.warehouseDisposeError) := by
  refine ⟨fun f rr rt => ?_, fun f rr rt dw => ?_, fun f rr rt => ?_⟩ <;>
    (cases rr <;> cases rt <;>
      (rcases f with _ | s
       · first | decide | (cases dw <;> decide)
       · first | (cases s <;> decide) | (cases dw <;> cases s <;> decide)))

/-- C7: in every execution of `etl_tasks`, the raw artifact's path is
published (`raw_data_path`) after the raw artifact is written and before
the transform phase begins, and the transformed artifact's path is
published (`transformed_data_path`) after it is written and before the load
phase begins; in particular the raw path is published even when the
transform or load phase subsequently fails. -/
theorem artifact_paths_published_between_phases (b : Behavior) :
    ((b.failAt = some BodyStep.transformData ∨ b.failAt = some BodyStep.loadData) →
      DriverAction.body BodyStep.pushRawPath ∈ (etl_tasks b).1)
    ∧ (∀ i < (etl_tasks b).1.length,
        (etl_tasks b).1.getD i (DriverAction.clean CleanupStep.removeRaw)
            = DriverAction.body BodyStep.pushRawPath →
          (∃ k < i, (etl_tasks b).1.getD k (DriverAction.clean CleanupStep.removeRaw)
            = DriverAction.body BodyStep.writeRaw)
          ∧ ∀ j < (etl_tasks b).1.length,
              (etl_tasks b).1.getD j (DriverAction.clean CleanupStep.removeRaw)
                  = DriverAction.body BodyStep.transformData → i < j)
    ∧ (∀ i < (etl_tasks b).1.length,
        (etl_tasks b).1.getD i (DriverAction.clean CleanupStep.removeRaw)
            = DriverAction.body BodyStep.pushTransformedPath →
          (∃ k < i, (etl_tasks b).1.getD k (DriverAction.clean CleanupStep.removeRaw)
            = DriverAction.body BodyStep.writeTransformed)
          ∧ ∀ j < (etl_tasks b).1.length,
              (etl_tasks b).1.getD j (DriverAction.clean CleanupStep.removeRaw)
                  = DriverAction.body BodyStep.loadData → i < j) := by
  obtain ⟨f, rr, rt, ds, dw⟩ := b
  refine ⟨?_, ?_, ?_⟩ <;>
    (cases rr <;> cases rt <;> cases ds <;> cases dw <;>
      (rcases f with _ | s
       · decide
       · cases s <;> decide))

/-- Witness for C7: in an execution whose load phase fails, the raw path
was published. -/
theorem artifact_paths_published_witness :
    DriverAction.body BodyStep.pushRawPath ∈ (etl_tasks behaviorDisposeFail).1 :=
  (artifact_paths_published_between_phases behaviorDisposeFail).1 (Or.inr rfl)

theorem validRun_run0 : ValidRun run0 := by
  constructor
  · intro t
    cases t <;> simp [run0]
  · intro t
    cases t <;> simp [run0]
  · intro t d hd s hs
    cases t <;> simp [upstream] at hd
    rcases hd with rfl | rfl | rfl | rfl <;>
      (simp [run0] at hs
       refine ⟨by simp [run0], 1, by simp [run0], by omega⟩)
  · intro t _
    cases t <;> simp [run0]
  · intro t _
    cases t <;> simp [run0]

theorem validRun_run1 : ValidRun run1 := by
  constructor
  · intro t
    cases t <;> simp [run1]
  · intro t
    cases t <;> simp [run1]
  · intro t d hd s hs
    cases t <;> simp [upstream] at hd
    simp [run1] at hs
  · intro t ht
    cases t
    case run_rental_etl => exact (ht rfl).elim
    all_goals simp [run1]
  · intro t ht
    cases t
    case run_rental_etl =>
      exact absurd (ht TaskId.run_date_etl (by simp [upstream])) (by simp [run1])
    all_goals simp [run1]

/-- C3: in every valid run of the task graph, a task never starts before
every task in its declared dependency set has outcome succeeded and has
finished beforehand; in particular the fact task `run_rental_etl` starts
only after all four dimension tasks (date, film, store, customer) have
succeeded.  The scheduler's gating behaviour is the spec-modelled
`ValidRun`; the dependency edges are those declared in `dag.py`. -/
theorem task_starts_only_after_deps_succeed (r : SchedRun) (h : ValidRun r) :
    (∀ t d, d ∈ upstream t → ∀ s, r.startTime t = some s →
      r.outcome d = Outcome.succeeded ∧ ∃ e, r.endTime d = some e ∧ e < s)
    ∧ (∀ s, r.startTime TaskId.run_rental_etl = some s →
        r.outcome TaskId.run_date_etl = Outcome.succeeded
        ∧ r.outcome TaskId.run_film_etl = Outcome.succeeded
        ∧ r.outcome TaskId.run_store_etl = Outcome.succeeded
        ∧ r.outcome TaskId.run_customer_etl = Outcome.succeeded) := by
  refine ⟨h.deps_ok, fun s hs => ?_⟩
  exact ⟨(h.deps_ok _ _ (by simp [upstream]) s hs).1,
    (h.deps_ok _ _ (by simp [upstream]) s hs).1,
    (h.deps_ok _ _ (by simp [upstream]) s hs).1,
    (h.deps_ok _ _ (by simp [upstream]) s hs).1⟩

/-- Witness for C3 at the fully successful concrete run. -/
theorem task_starts_only_after_deps_succeed_witness :
    run0.outcome TaskId.run_date_etl = Outcome.succeeded
    ∧ run0.outcome TaskId.run_film_etl = Outcome.succeeded
    ∧ run0.outcome TaskId.run_store_etl = Outcome.succeeded
    ∧ run0.outcome TaskId.run_customer_etl = Outcome.succeeded :=
  (task_starts_only_after_deps_succeed run0 validRun_run0).2 2 rfl

/-- C4: in every valid run in which the date dimension task fails all its
retries, each sibling dimension task (film, store, customer — none of which
depends on the failed task) still reaches succeeded whenever its own work
succeeds, and the dependent fact task `run_rental_etl` is skipped: it never
succeeds and never even starts (so it is never loaded). -/
theorem failure_isolation (r : SchedRun) (h : ValidRun r)
    (hfail : r.outcome TaskId.run_date_etl = Outcome.failed) :
    (r.intrinsicOk TaskId.run_film_etl = true →
      r.outcome TaskId.run_film_etl = Outcome.succeeded)
    ∧ (r.intrinsicOk TaskId.run_store_etl = true →
      r.outcome TaskId.run_store_etl = Outcome.succeeded)
    ∧ (r.intrinsicOk TaskId.run_customer_etl = true →
      r.outcome TaskId.run_customer_etl = Outcome.succeeded)
    ∧ r.outcome TaskId.run_rental_etl = Outcome.skipped
    ∧ r.outcome TaskId.run_rental_etl ≠ Outcome.succeeded
    ∧ (r.startTime TaskId.run_rental_etl).isSome = false := by
  have sib : ∀ t : TaskId, upstream t = [] → r.intrinsicOk t = true →
      r.outcome t = Outcome.succeeded := by
    intro t hup hok
    have hne : r.outcome t ≠ Outcome.skipped := by
      refine h.progress t ?_
      intro d hd
      rw [hup] at hd
      simp at hd
    rw [h.run_outcome t hne, hok]
    simp
  have hskip : r.outcome TaskId.run_rental_etl = Outcome.skipped := by
    by_contra hne
    have hstart := (h.started_iff TaskId.run_rental_etl).mpr hne
    obtain ⟨s, hs⟩ := Option.isSome_iff_exists.mp hstart
    have := (h.deps_ok TaskId.run_rental_etl TaskId.run_date_etl
      (by simp [upstream]) s hs).1
    rw [hfail] at this
    exact absurd this (by simp)
  have hnostart : (r.startTime TaskId.run_rental_etl).isSome = false := by
    cases hb : (r.startTime TaskId.run_rental_etl).isSome
    · rfl
    · have := (h.started_iff TaskId.run_rental_etl).mp hb
      exact absurd hskip this
  exact ⟨sib _ rfl, sib _ rfl, sib _ rfl, hskip, by rw [hskip]; simp, hnostart⟩

/-- Witness for C4 at the concrete run in which the date task fails. -/
theorem failure_isolation_witness :
    run1.outcome TaskId.run_film_etl = Outcome.succeeded
    ∧ run1.outcome TaskId.run_rental_etl = Outcome.skipped :=
  ⟨(failure_isolation run1 validRun_run1 rfl).1 rfl,
   (failure_isolation run1 validRun_run1 rfl).2.2.2.1⟩

/-- C9 counterexample: `remove_file_safely` does not return a boolean that
is true when something was removed — on a store containing the file, the
call removes the file yet returns Python `None`, which is not `True`. -/
theorem remove_returns_none_cex :
    (remove_file_safely ["f"] "f").1 = []
    ∧ (remove_file_safely ["f"] "f").2 = PyReturn.none
    ∧ PyReturn.none ≠ PyReturn.bool true := by
  decide

/-- C9 amended: `remove_file_safely` is idempotent — calling it twice
leaves the same staging-store state and the same result as calling it once,
and afterwards the path no longer exists — but it always returns `None`
rather than a boolean removal indicator. -/
theorem remove_idempotent_returns_none (fs : List String) (p : String) :
    (remove_file_safely (remove_file_safely fs p).1 p).1 = (remove_file_safely fs p).1
    ∧ (remove_file_safely (remove_file_safely fs p).1 p).2 = (remove_file_safely fs p).2
    ∧ (remove_file_safely fs p).2 = PyReturn.none
    ∧ p ∉ (remove_file_safely fs p).1 := by
  by_cases h : p ∈ fs
  · have hout : p ∉ fs.filter (fun q => q ≠ p) := by
      simp [List.mem_filter]
    refine ⟨?_, ?_, ?_, ?_⟩ <;> simp [remove_file_safely, h, hout]
  · refine ⟨?_, ?_, ?_, ?_⟩ <;> simp [remove_file_safely, h]

/-- C10: `get_config` returns the source configuration exactly for the name
`sakila` and the warehouse configuration exactly for `sakila_dw`, and for
every other name it raises `ValueError` — it never returns a configuration
for an unrecognized database name. -/
theorem get_config_only_known_names (c : ConfigEnv) (s : String) :
    (s = "sakila" → get_config c s = Except.ok (source_db_config c))
    ∧ (s = "sakila_dw" → get_config c s = Except.ok (warehouse_db_config c))
    ∧ (s ≠ "sakila" → s ≠ "sakila_dw" →
        ∀ cfg : DBConfig, get_config c s ≠ Except.ok cfg) := by
  refine ⟨fun h1 => ?_, fun h2 => ?_, fun h1 h2 cfg => ?_⟩
  · simp [get_config, h1]
  · subst h2
    simp [get_config]
  · simp [get_config, h1, h2]

/-- Witness for C10 at a concrete configuration environment and the names
`sakila`, `sakila_dw` and `foo`. -/
theorem get_config_only_known_names_witness :
    get_config envEx "sakila" = Except.ok (source_db_config envEx)
    ∧ get_config envEx "sakila_dw" = Except.ok (warehouse_db_config envEx)
    ∧ get_config envEx "foo" ≠ Except.ok (source_db_config envEx) :=
  ⟨(get_config_only_known_names envEx "sakila").1 rfl,
   (get_config_only_known_names envEx "sakila_dw").2.1 rfl,
   (get_config_only_known_names envEx "foo").2.2 (by decide) (by decide)
     (source_db_config envEx)⟩
